import Mathlib

/-!
Shallow embedding of the client-side real-time session transport layer
(`frontend/src/contexts/WebSocketContext.tsx`): connection lifecycle,
reconnection backoff, message dispatch and the outbound send API.

The React component is event-driven: its behaviour is a collection of
handlers (`connect`, `disconnect`, `sendMessage`, `sendBinaryData`, the
socket callbacks `onopen` / `onmessage` / `onclose` / `onerror`, and the
reconnect timer callback), each of which reads and mutates a fixed set of
refs and state cells.  We embed that as a state record `WSState` and one
Lean function per handler, each returning the updated state together with
the ordered list of observable side effects (console output, toast
notifications, frames sent on the socket, timer scheduling / cancellation,
socket close calls).  Host-environment operations are represented at their
boundary: `JSON.parse` becomes the `Option`-valued outcome delivered with
the message event, `setTimeout` becomes a recorded `scheduleTimer` effect
plus a stored `PendingTimer` value, and the timer firing becomes the
explicit `fireTimer` transition.
-/

namespace WS

/-- `connectionStatus` values of the provider
(`'connecting' | 'connected' | 'disconnected' | 'error'`). -/
inductive ConnStatus where
  | connecting
  | connected
  | disconnected
  | error
deriving DecidableEq, Repr

/-- `sessionType` argument of `connect` (`'interview' | 'coding'`). -/
inductive SessionType where
  | interview
  | coding
deriving DecidableEq, Repr

/-- Browser `WebSocket.readyState` values. -/
inductive ReadyState where
  | CONNECTING
  | OPEN
  | CLOSING
  | CLOSED
deriving DecidableEq, Repr

/-- The underlying browser socket object, as far as the component reads it:
its URL and its `readyState`. -/
structure Socket where
  url : String
  readyState : ReadyState
deriving DecidableEq, Repr

/-- The shape reached through `message.data?.message` in the `'error'`
branch of `handleWebSocketMessage`; the `data` payload is otherwise opaque
to the transport layer. -/
structure ErrorData where
  message : Option String
deriving DecidableEq, Repr

/-- The `WebSocketMessage` interface.  The payload fields are `any` in the
source and opaque to the transport layer; we model presence/absence with
`Option` (absent = `undefined`) and keep the payloads as strings, except
`data`, whose `message` sub-field is read by the error handler. -/
structure WebSocketMessage where
  type : String
  session_id : Option String := none
  timestamp : Nat := 0
  data : Option ErrorData := none
  feedback : Option String := none
  result : Option String := none
  question : Option String := none
deriving DecidableEq, Repr

/-- A pending reconnect timer: the stored `reconnectTimeoutRef` handle with
the delay it was scheduled for and the `SessionTarget` its callback closes
over (`setTimeout(() => connect(sessionId, sessionType), delay)`). -/
structure PendingTimer where
  delay : Nat
  sessionId : String
  sessionType : SessionType
deriving DecidableEq, Repr

/-- Outbound frames sent on the socket: the autonomous auth frame
`JSON.stringify(\x7b type: 'auth', token \x7d)`, a JSON-serialized caller
payload from `sendMessage`, or a raw binary buffer from `sendBinaryData`. -/
inductive Frame where
  | auth (token : String)
  | jsonText (payload : String)
  | binary (data : List Nat)
deriving DecidableEq, Repr

/-- Observable side effects of one handler invocation, in order. -/
inductive Effect where
  | consoleLog (s : String)
  | consoleError (s : String)
  | toastSuccess (s : String)
  | toastError (s : String)
  | send (f : Frame)
  | close (code : Nat) (reason : String)
  | clearTimer
  | scheduleTimer (delay : Nat)
deriving DecidableEq, Repr

/-- The mutable state of one `WebSocketProvider` instance: the four React
state cells and the three refs. -/
structure WSState where
  isConnected : Bool
  connectionStatus : ConnStatus
  lastMessage : Option WebSocketMessage
  messages : List WebSocketMessage
  wsRef : Option Socket
  reconnectTimeoutRef : Option PendingTimer
  reconnectAttemptsRef : Nat
deriving DecidableEq, Repr

/-- Auth Source values read by the provider (`useAuth()`): the bearer token
(`absent` models `null`/`undefined`) and the authenticated flag. -/
structure Auth where
  token : Option String
  isAuthenticated : Bool
deriving DecidableEq, Repr

/-- `const maxReconnectAttempts = 5`. -/
def maxReconnectAttempts : Nat := 5

/-- The provider state at mount time: disconnected, empty log, no socket,
no timer, zero attempts. -/
def initState : WSState :=
  { isConnected := false
    connectionStatus := ConnStatus.disconnected
    lastMessage := none
    messages := []
    wsRef := none
    reconnectTimeoutRef := none
    reconnectAttemptsRef := 0 }

/-- JS truthiness of the token as tested by `!token`: falsy when absent or
the empty string. -/
def tokenTruthy : Option String → Bool
  | none => false
  | some t => t ≠ ""

/-- JS `a || b` fallback on the optional embedded error message
(`message.data?.message || 'An error occurred'`): the default is used when
the chain yields `undefined` or a falsy (empty) string. -/
def jsOrElse (o : Option String) (d : String) : String :=
  match o with
  | none => d
  | some s => if s = "" then d else s

/-- Stand-in for the externally configured `process.env.REACT_APP_WS_URL`. -/
def reactAppWsUrl : String := "REACT_APP_WS_URL"

/-- Endpoint resolution from the session kind and id (the two template
strings in `connect`). -/
def wsUrl (sessionType : SessionType) (sessionId : String) : String :=
  match sessionType with
  | SessionType.interview => reactAppWsUrl ++ "/ws/interview/" ++ sessionId
  | SessionType.coding => reactAppWsUrl ++ "/ws/coding/" ++ sessionId

/-- `handleWebSocketMessage`: the `switch (message.type)` dispatch.  Pure
mapping from a parsed message to notification / logging effects; it touches
no state. -/
def handleWebSocketMessage (m : WebSocketMessage) : List Effect :=
  if m.type = "connection_established" then
    [Effect.toastSuccess "Connected to HireSmart AI"]
  else if m.type = "real_time_feedback" then
    match m.feedback with
    | some f => [Effect.consoleLog ("Real-time feedback: " ++ f)]
    | none => []
  else if m.type = "coding_execution_result" then
    match m.result with
    | some r => [Effect.consoleLog ("Code execution result: " ++ r)]
    | none => []
  else if m.type = "interview_question" then
    match m.question with
    | some q => [Effect.consoleLog ("New interview question: " ++ q)]
    | none => []
  else if m.type = "error" then
    [Effect.toastError (jsOrElse (m.data.bind ErrorData.message) "An error occurred")]
  else
    [Effect.consoleLog ("Unhandled message type: " ++ m.type)]

/-- `attemptReconnect(sessionId, sessionType)`: give up with a toast when
attempts are exhausted, otherwise increment the counter, compute
`Math.min(1000 * Math.pow(2, attempts), 30000)` and schedule the timer
(`Math.pow` is exact here since the exponent never exceeds 5). -/
def attemptReconnect (sessionId : String) (sessionType : SessionType)
    (s : WSState) : WSState × List Effect :=
  if s.reconnectAttemptsRef ≥ maxReconnectAttempts then
    (s, [Effect.toastError "Unable to reconnect. Please refresh the page."])
  else
    let n := s.reconnectAttemptsRef + 1
    let delay := min (1000 * 2 ^ n) 30000
    ({ s with
        reconnectAttemptsRef := n
        reconnectTimeoutRef :=
          some { delay := delay, sessionId := sessionId, sessionType := sessionType } },
     [Effect.consoleLog
        ("Attempting to reconnect in " ++ toString delay ++ "ms (attempt "
          ++ toString n ++ ")"),
      Effect.scheduleTimer delay])

/-- `connect(sessionId, sessionType)`: no-op with a console error when the
auth precondition fails; no-op with a console log when the current socket
is already open; otherwise set status to `connecting` and install a fresh
socket at the resolved URL (handler wiring carries no further state). -/
def connect (auth : Auth) (sessionId : String) (sessionType : SessionType)
    (s : WSState) : WSState × List Effect :=
  if !auth.isAuthenticated || !(tokenTruthy auth.token) then
    (s, [Effect.consoleError "Cannot connect WebSocket: User not authenticated"])
  else if s.wsRef.map Socket.readyState = some ReadyState.OPEN then
    (s, [Effect.consoleLog "WebSocket already connected"])
  else
    ({ s with
        connectionStatus := ConnStatus.connecting
        wsRef := some { url := wsUrl sessionType sessionId
                        readyState := ReadyState.CONNECTING } },
     [])

/-- The `open` event: the browser marks the socket open and invokes the
`onopen` handler, which logs, sets connected state, resets the attempt
counter and sends the auth frame (guarded by `if (wsRef.current)`). -/
def onopenEvent (token : String) (s : WSState) : WSState × List Effect :=
  let s1 : WSState :=
    { s with
        wsRef := s.wsRef.map fun sock => { sock with readyState := ReadyState.OPEN }
        isConnected := true
        connectionStatus := ConnStatus.connected
        reconnectAttemptsRef := 0 }
  match s1.wsRef with
  | some _ =>
      (s1, [Effect.consoleLog "WebSocket connected", Effect.send (Frame.auth token)])
  | none => (s1, [Effect.consoleLog "WebSocket connected"])

/-- The `message` event: `parsed` is the outcome of `JSON.parse(event.data)`
(`none` when it throws, caught by the surrounding `try`).  On success the
message becomes the new last message, is appended to the log, and is
dispatched; on failure the error is logged and nothing else happens. -/
def onmessage (parsed : Option WebSocketMessage) (s : WSState) :
    WSState × List Effect :=
  match parsed with
  | some message =>
      ({ s with
          lastMessage := some message
          messages := s.messages ++ [message] },
       handleWebSocketMessage message)
  | none => (s, [Effect.consoleError "Error parsing WebSocket message:"])

/-- The `close` event handler: log, drop to `disconnected`, and attempt a
reconnect only when the closure was abnormal and attempts remain. -/
def onclose (sessionId : String) (sessionType : SessionType) (code : Nat)
    (reason : String) (s : WSState) : WSState × List Effect :=
  let logE := Effect.consoleLog
    ("WebSocket disconnected: " ++ toString code ++ " " ++ reason)
  let s1 : WSState :=
    { s with isConnected := false, connectionStatus := ConnStatus.disconnected }
  if code ≠ 1000 ∧ s1.reconnectAttemptsRef < maxReconnectAttempts then
    let r := attemptReconnect sessionId sessionType s1
    (r.1, logE :: r.2)
  else
    (s1, [logE])

/-- The `error` event handler: status `error`, console error, toast. -/
def onerror (s : WSState) : WSState × List Effect :=
  ({ s with connectionStatus := ConnStatus.error },
   [Effect.consoleError "WebSocket error:",
    Effect.toastError "Connection error. Please check your internet connection."])

/-- `disconnect()`: clear a pending timer if any, close and release the
socket if any (normal closure code 1000, fixed reason), then force
disconnected state and reset the attempt counter. -/
def disconnect (s : WSState) : WSState × List Effect :=
  let t := match s.reconnectTimeoutRef with
    | some _ => (({ s with reconnectTimeoutRef := none } : WSState), [Effect.clearTimer])
    | none => (s, ([] : List Effect))
  let u := match t.1.wsRef with
    | some _ =>
        (({ t.1 with wsRef := none } : WSState),
         t.2 ++ [Effect.close 1000 "User disconnected"])
    | none => (t.1, t.2)
  ({ u.1 with
      isConnected := false
      connectionStatus := ConnStatus.disconnected
      reconnectAttemptsRef := 0 },
   u.2)

/-- `sendMessage(message)`: transmit the JSON-serialized payload when the
socket reports open, otherwise only log and toast (no throw, no queueing). -/
def sendMessage (payload : String) (s : WSState) : WSState × List Effect :=
  if s.wsRef.map Socket.readyState = some ReadyState.OPEN then
    (s, [Effect.send (Frame.jsonText payload)])
  else
    (s, [Effect.consoleError "WebSocket is not connected",
         Effect.toastError "Connection lost. Please reconnect."])

/-- `sendBinaryData(data)`: transmit the raw buffer when the socket reports
open, otherwise only log and toast. -/
def sendBinaryData (payload : List Nat) (s : WSState) : WSState × List Effect :=
  if s.wsRef.map Socket.readyState = some ReadyState.OPEN then
    (s, [Effect.send (Frame.binary payload)])
  else
    (s, [Effect.consoleError "WebSocket is not connected",
         Effect.toastError "Connection lost. Please reconnect."])

/-- `clearMessages()`: empty the log and clear the last-message pointer. -/
def clearMessages (s : WSState) : WSState × List Effect :=
  ({ s with messages := [], lastMessage := none }, [])

/-- The reconnect timer firing: when a timer is pending its callback calls
`connect` with the captured session target; a cancelled (cleared) timer
never fires, so on a state without a pending timer this is a no-op. -/
def fireTimer (auth : Auth) (s : WSState) : WSState × List Effect :=
  match s.reconnectTimeoutRef with
  | none => (s, [])
  | some t =>
      connect auth t.sessionId t.sessionType
        { s with reconnectTimeoutRef := none }

/-- Iterated `close` events with a fixed abnormal target: the state and the
accumulated effect trace after `n` consecutive closures of one logical
session. -/
def closuresTrace (sessionId : String) (sessionType : SessionType) (code : Nat)
    (reason : String) : Nat → WSState → WSState × List Effect
  | 0, s => (s, [])
  | n + 1, s =>
      let r1 := onclose sessionId sessionType code reason s
      let r2 := closuresTrace sessionId sessionType code reason n r1.1
      (r2.1, r1.2 ++ r2.2)

/-- The frames transmitted among a list of effects. -/
def sentFrames (effs : List Effect) : List Frame :=
  effs.filterMap fun e =>
    match e with
    | Effect.send f => some f
    | _ => none

/-- Whether a list of effects contains any user-visible toast. -/
def hasToast (effs : List Effect) : Bool :=
  effs.any fun e =>
    match e with
    | Effect.toastSuccess _ => true
    | Effect.toastError _ => true
    | _ => false

/-- Whether a list of effects schedules a reconnect timer. -/
def schedulesTimer (effs : List Effect) : Bool :=
  effs.any fun e =>
    match e with
    | Effect.scheduleTimer _ => true
    | _ => false

/-- Whether an effect is pure logging or a toast notification. -/
def isLogOrToast : Effect → Bool
  | Effect.consoleLog _ => true
  | Effect.consoleError _ => true
  | Effect.toastSuccess _ => true
  | Effect.toastError _ => true
  | _ => false

end WS

namespace WS

/-! ### Helper lemmas -/

theorem handle_all_logOrToast (m : WebSocketMessage) :
    (handleWebSocketMessage m).all isLogOrToast = true := by
  unfold handleWebSocketMessage
  repeat' split
  all_goals simp [isLogOrToast]

theorem sentFrames_nil_of_logOrToast (effs : List Effect)
    (h : effs.all isLogOrToast = true) : sentFrames effs = [] := by
  induction effs with
  | nil => rfl
  | cons e es ih =>
    simp only [List.all_cons, Bool.and_eq_true] at h
    cases e <;>
      simp only [isLogOrToast] at h <;>
      simp_all [sentFrames, List.filterMap_cons]

theorem onclose_attempts (sid : String) (st : SessionType) (code : Nat)
    (reason : String) (s : WSState) (hc : code ≠ 1000) :
    ((onclose sid st code reason s).1).reconnectAttemptsRef =
      if s.reconnectAttemptsRef < maxReconnectAttempts then
        s.reconnectAttemptsRef + 1
      else s.reconnectAttemptsRef := by
  unfold onclose attemptReconnect
  by_cases h : s.reconnectAttemptsRef < maxReconnectAttempts
  · simp [hc, h, Nat.not_le.mpr h]
  · simp [hc, h]

theorem closures_attempts (sid : String) (st : SessionType) (code : Nat)
    (reason : String) (hc : code ≠ 1000) :
    ∀ (n : Nat) (s : WSState), s.reconnectAttemptsRef ≤ 5 →
      ((closuresTrace sid st code reason n s).1).reconnectAttemptsRef =
        min (s.reconnectAttemptsRef + n) 5 := by
  intro n
  induction n with
  | zero =>
    intro s hs
    simp only [closuresTrace]
    omega
  | succ k ih =>
    intro s hs
    simp only [closuresTrace]
    have h1 := onclose_attempts sid st code reason s hc
    have h2 : ((onclose sid st code reason s).1).reconnectAttemptsRef ≤ 5 := by
      rw [h1]; unfold maxReconnectAttempts; split <;> omega
    rw [ih _ h2, h1]
    unfold maxReconnectAttempts
    split <;> omega

end WS

namespace WS

/-! ### Claim theorems -/

/-- C1: for every sequence of N consecutive unexpected closures (close code
not equal to 1000) of one logical session, the reconnect attempt counter
after the N-th closure equals min(N, 5), and once the counter equals the
maximum of 5 no further reconnect timer is ever scheduled by a subsequent
unexpected closure. -/
theorem reconnect_attempts_bounded (sid : String) (st : SessionType)
    (code : Nat) (reason : String) (s : WSState) (hc : code ≠ 1000)
    (h0 : s.reconnectAttemptsRef = 0) (N : Nat) :
    ((closuresTrace sid st code reason N s).1).reconnectAttemptsRef = min N 5 ∧
    ∀ t : WSState, t.reconnectAttemptsRef = maxReconnectAttempts →
      schedulesTimer (onclose sid st code reason t).2 = false ∧
      ((onclose sid st code reason t).1).reconnectTimeoutRef =
        t.reconnectTimeoutRef := by
  constructor
  · have h := closures_attempts sid st code reason hc N s (by omega)
    rw [h, h0]
    omega
  · intro t ht
    unfold onclose
    have hlt : ¬ (t.reconnectAttemptsRef < maxReconnectAttempts) := by
      rw [ht]; omega
    simp [hlt, schedulesTimer]

theorem reconnect_attempts_bounded_witness :
    (1006 : Nat) ≠ 1000 ∧ initState.reconnectAttemptsRef = 0 ∧
    ((closuresTrace "abc" SessionType.interview 1006 "" 7 initState).1).reconnectAttemptsRef
      = min 7 5 :=
  ⟨by decide, rfl,
    (reconnect_attempts_bounded "abc" SessionType.interview 1006 "" initState
      (by decide) rfl 7).1⟩

/-- C2: for every reconnect attempt k with 1 ≤ k ≤ 5 (k the counter value
after the increment for that attempt), the scheduled backoff delay equals
exactly min(1000 * 2^k, 30000) ms; in particular attempt 1 yields 2000 ms,
attempt 2 yields 4000 ms and attempt 5 yields 30000 ms. -/
theorem backoff_delay_exact (sid : String) (st : SessionType) (s : WSState)
    (h : s.reconnectAttemptsRef < maxReconnectAttempts) :
    ((attemptReconnect sid st s).1).reconnectAttemptsRef =
      s.reconnectAttemptsRef + 1 ∧
    1 ≤ s.reconnectAttemptsRef + 1 ∧ s.reconnectAttemptsRef + 1 ≤ 5 ∧
    ((attemptReconnect sid st s).1).reconnectTimeoutRef =
      some { delay := min (1000 * 2 ^ (s.reconnectAttemptsRef + 1)) 30000,
             sessionId := sid, sessionType := st } ∧
    Effect.scheduleTimer (min (1000 * 2 ^ (s.reconnectAttemptsRef + 1)) 30000) ∈
      (attemptReconnect sid st s).2 ∧
    min (1000 * 2 ^ 1) 30000 = 2000 ∧
    min (1000 * 2 ^ 2) 30000 = 4000 ∧
    min (1000 * 2 ^ 5) 30000 = 30000 := by
  have hnot : ¬ (s.reconnectAttemptsRef ≥ maxReconnectAttempts) := by
    unfold maxReconnectAttempts at h ⊢; omega
  unfold attemptReconnect
  refine ⟨by simp [hnot], by omega, ?_, by simp [hnot], by simp [hnot], by decide,
    by decide, by decide⟩
  unfold maxReconnectAttempts at h; omega

theorem backoff_delay_exact_witness :
    initState.reconnectAttemptsRef < maxReconnectAttempts ∧
    ((attemptReconnect "abc" SessionType.interview initState).1).reconnectTimeoutRef =
      some { delay := min (1000 * 2 ^ (initState.reconnectAttemptsRef + 1)) 30000,
             sessionId := "abc", sessionType := SessionType.interview } :=
  ⟨by decide,
    (backoff_delay_exact "abc" SessionType.interview initState (by decide)).2.2.2.1⟩

/-- C6: an inbound frame whose payload fails to parse is logged and
discarded: the state (message log, last-message pointer, connection status,
socket, counters) is unchanged and the only effect is the console error —
no handler runs and nothing is forwarded. -/
theorem parse_failure_drops (s : WSState) :
    (onmessage none s).1 = s ∧
    (onmessage none s).2 =
      [Effect.consoleError "Error parsing WebSocket message:"] :=
  ⟨rfl, rfl⟩

/-- C7: sending (text or binary) while the socket is not open never throws
(the handlers are total functions), transmits nothing, changes no state,
and only emits a console error plus a user-visible toast. -/
theorem send_not_open_safe (payload : String) (bin : List Nat) (s : WSState)
    (h : s.wsRef.map Socket.readyState ≠ some ReadyState.OPEN) :
    (sendMessage payload s).1 = s ∧
    sentFrames (sendMessage payload s).2 = [] ∧
    hasToast (sendMessage payload s).2 = true ∧
    (sendMessage payload s).2 =
      [Effect.consoleError "WebSocket is not connected",
       Effect.toastError "Connection lost. Please reconnect."] ∧
    (sendBinaryData bin s).1 = s ∧
    sentFrames (sendBinaryData bin s).2 = [] ∧
    (sendBinaryData bin s).2 =
      [Effect.consoleError "WebSocket is not connected",
       Effect.toastError "Connection lost. Please reconnect."] := by
  unfold sendMessage sendBinaryData
  simp [h, sentFrames, hasToast]

theorem send_not_open_safe_witness :
    initState.wsRef.map Socket.readyState ≠ some ReadyState.OPEN ∧
    sentFrames (sendMessage "hello" initState).2 = [] :=
  ⟨by decide, (send_not_open_safe "hello" [0] initState (by decide)).2.1⟩

end WS

namespace WS

/-- C8 counterexample: calling `connect` while unauthenticated emits NO
user-visible notification — the only effect is the console error, so the
"surfaced as a non-blocking user-visible notification" part of the claim is
false on the code. -/
theorem connect_unauth_no_toast_cx :
    hasToast (connect { token := none, isAuthenticated := false } "abc"
      SessionType.interview initState).2 = false ∧
    (connect { token := none, isAuthenticated := false } "abc"
      SessionType.interview initState).2 =
      [Effect.consoleError "Cannot connect WebSocket: User not authenticated"] :=
  ⟨rfl, rfl⟩

/-- C8 (amended): calling `connect` when the Auth Source does not report
authenticated with a non-empty token is a no-op that logs a local error and
never raises an exception (the handler is a total function); no user-visible
notification is emitted on this path. -/
theorem connect_precondition_noop (a : Auth) (sid : String) (st : SessionType)
    (s : WSState) (h : (!a.isAuthenticated || !(tokenTruthy a.token)) = true) :
    (connect a sid st s).1 = s ∧
    (connect a sid st s).2 =
      [Effect.consoleError "Cannot connect WebSocket: User not authenticated"] ∧
    hasToast (connect a sid st s).2 = false := by
  unfold connect
  simp [h, hasToast]

theorem connect_precondition_noop_witness :
    (!(Auth.mk none false).isAuthenticated || !(tokenTruthy (Auth.mk none false).token))
      = true ∧
    (connect (Auth.mk none false) "abc" SessionType.coding initState).1 = initState :=
  ⟨by decide,
    (connect_precondition_noop (Auth.mk none false) "abc" SessionType.coding initState
      (by decide)).1⟩

/-- C9: calling `connect` while the current socket reports an open state is
a no-op: the state (socket reference, connection status, attempt counter,
message log) is unchanged and nothing is transmitted. -/
theorem connect_open_noop (a : Auth) (sid : String) (st : SessionType)
    (s : WSState) (h : s.wsRef.map Socket.readyState = some ReadyState.OPEN) :
    (connect a sid st s).1 = s ∧
    sentFrames (connect a sid st s).2 = [] := by
  unfold connect
  by_cases hb : (!a.isAuthenticated || !(tokenTruthy a.token)) = true
  · simp [hb, sentFrames]
  · simp [hb, h, sentFrames]

theorem connect_open_noop_witness :
    (WSState.mk false ConnStatus.connected none [] (some (Socket.mk "u" ReadyState.OPEN))
        none 0).wsRef.map Socket.readyState = some ReadyState.OPEN ∧
    (connect (Auth.mk (some "tok") true) "abc" SessionType.interview
        (WSState.mk false ConnStatus.connected none [] (some (Socket.mk "u" ReadyState.OPEN))
          none 0)).1 =
      WSState.mk false ConnStatus.connected none [] (some (Socket.mk "u" ReadyState.OPEN))
        none 0 :=
  ⟨by decide,
    (connect_open_noop (Auth.mk (some "tok") true) "abc" SessionType.interview
      (WSState.mk false ConnStatus.connected none [] (some (Socket.mk "u" ReadyState.OPEN))
        none 0) (by decide)).1⟩

/-- C10: for every successfully parsed inbound message, dispatch only logs
or toasts: the connection status, connected flag, socket reference, attempt
counter and pending timer are unchanged, the only message-store mutation is
the single append to the log plus the last-message update, and no frame is
transmitted. -/
theorem dispatch_frame_effect (m : WebSocketMessage) (s : WSState) :
    ((onmessage (some m) s).1).connectionStatus = s.connectionStatus ∧
    ((onmessage (some m) s).1).isConnected = s.isConnected ∧
    ((onmessage (some m) s).1).wsRef = s.wsRef ∧
    ((onmessage (some m) s).1).reconnectAttemptsRef = s.reconnectAttemptsRef ∧
    ((onmessage (some m) s).1).reconnectTimeoutRef = s.reconnectTimeoutRef ∧
    ((onmessage (some m) s).1).messages = s.messages ++ [m] ∧
    ((onmessage (some m) s).1).lastMessage = some m ∧
    (onmessage (some m) s).2 = handleWebSocketMessage m ∧
    (handleWebSocketMessage m).all isLogOrToast = true ∧
    sentFrames (handleWebSocketMessage m) = [] :=
  ⟨rfl, rfl, rfl, rfl, rfl, rfl, rfl, rfl, handle_all_logOrToast m,
    sentFrames_nil_of_logOrToast _ (handle_all_logOrToast m)⟩

end WS

namespace WS

/-- C4: on every successful open the state becomes `connected`, the attempt
counter is reset to 0 regardless of its prior value, and exactly one auth
frame is sent over the new connection; every other handler of the manager
(connect, message, close, error, disconnect, reconnect scheduling)
transmits nothing, so the auth frame is the only autonomously generated
message. -/
theorem onopen_resets_and_auths (token : String) (s : WSState) (sock : Socket)
    (h : s.wsRef = some sock) :
    ((onopenEvent token s).1).connectionStatus = ConnStatus.connected ∧
    ((onopenEvent token s).1).isConnected = true ∧
    ((onopenEvent token s).1).reconnectAttemptsRef = 0 ∧
    sentFrames (onopenEvent token s).2 = [Frame.auth token] ∧
    (∀ (a : Auth) (sid : String) (st : SessionType) (t : WSState),
      sentFrames (connect a sid st t).2 = []) ∧
    (∀ (p : Option WebSocketMessage) (t : WSState),
      sentFrames (onmessage p t).2 = []) ∧
    (∀ (sid : String) (st : SessionType) (c : Nat) (rs : String) (t : WSState),
      sentFrames (onclose sid st c rs t).2 = []) ∧
    (∀ t : WSState, sentFrames (onerror t).2 = []) ∧
    (∀ t : WSState, sentFrames (disconnect t).2 = []) ∧
    (∀ (sid : String) (st : SessionType) (t : WSState),
      sentFrames (attemptReconnect sid st t).2 = []) := by
  refine ⟨?_, ?_, ?_, ?_, ?_, ?_, ?_, ?_, ?_, ?_⟩
  · simp [onopenEvent, h]
  · simp [onopenEvent, h]
  · simp [onopenEvent, h]
  · simp [onopenEvent, h, sentFrames]
  · intro a sid st t
    unfold connect
    repeat' split
    all_goals simp [sentFrames]
  · intro p t
    cases p with
    | none => rfl
    | some m =>
      simpa [onmessage] using sentFrames_nil_of_logOrToast _ (handle_all_logOrToast m)
  · intro sid st c rs t
    unfold onclose attemptReconnect
    by_cases h1 : c = 1000
    · simp [h1, sentFrames]
    · by_cases h2 : t.reconnectAttemptsRef < maxReconnectAttempts
      · simp [h1, h2, Nat.not_le.mpr h2, sentFrames]
      · simp [h1, h2, sentFrames]
  · intro t; rfl
  · intro t
    obtain ⟨d1, d2, d3, d4, d5, d6, d7⟩ := t
    cases d5 <;> cases d6 <;> simp [disconnect, sentFrames]
  · intro sid st t
    unfold attemptReconnect
    repeat' split
    all_goals simp [sentFrames]

theorem onopen_resets_and_auths_witness :
    (WSState.mk false ConnStatus.connecting none []
        (some (Socket.mk "u" ReadyState.CONNECTING)) none 4).wsRef =
      some (Socket.mk "u" ReadyState.CONNECTING) ∧
    sentFrames (onopenEvent "tok"
      (WSState.mk false ConnStatus.connecting none []
        (some (Socket.mk "u" ReadyState.CONNECTING)) none 4)).2 =
      [Frame.auth "tok"] :=
  ⟨rfl,
    (onopen_resets_and_auths "tok"
      (WSState.mk false ConnStatus.connecting none []
        (some (Socket.mk "u" ReadyState.CONNECTING)) none 4)
      (Socket.mk "u" ReadyState.CONNECTING) rfl).2.2.2.1⟩

/-- C5: `disconnect()` cancels any pending reconnect timer (the timer can
never fire afterwards: `fireTimer` on the resulting state is a no-op),
closes an existing socket with code 1000 and the fixed reason, always
leaves the state disconnected with the counter at 0 and no socket, and is
idempotent. -/
theorem disconnect_spec (s : WSState) :
    ((disconnect s).1).reconnectTimeoutRef = none ∧
    ((disconnect s).1).wsRef = none ∧
    ((disconnect s).1).connectionStatus = ConnStatus.disconnected ∧
    ((disconnect s).1).isConnected = false ∧
    ((disconnect s).1).reconnectAttemptsRef = 0 ∧
    (s.reconnectTimeoutRef.isSome = true →
      Effect.clearTimer ∈ (disconnect s).2) ∧
    (s.wsRef.isSome = true →
      Effect.close 1000 "User disconnected" ∈ (disconnect s).2) ∧
    (disconnect ((disconnect s).1)).1 = (disconnect s).1 ∧
    ∀ a : Auth, fireTimer a ((disconnect s).1) = (((disconnect s).1), []) := by
  obtain ⟨c1, c2, c3, c4, c5, c6, c7⟩ := s
  cases c5 <;> cases c6 <;> simp [disconnect, fireTimer]

theorem disconnect_spec_witness :
    ((WSState.mk true ConnStatus.connected none []
        (some (Socket.mk "u" ReadyState.OPEN))
        (some (PendingTimer.mk 2000 "abc" SessionType.interview)) 3).wsRef.isSome
      = true) ∧
    Effect.close 1000 "User disconnected" ∈
      (disconnect (WSState.mk true ConnStatus.connected none []
        (some (Socket.mk "u" ReadyState.OPEN))
        (some (PendingTimer.mk 2000 "abc" SessionType.interview)) 3)).2 :=
  ⟨rfl,
    (disconnect_spec (WSState.mk true ConnStatus.connected none []
        (some (Socket.mk "u" ReadyState.OPEN))
        (some (PendingTimer.mk 2000 "abc" SessionType.interview)) 3)).2.2.2.2.2.2.1
      rfl⟩

/-- C3 (code evaluated at the failing input): after five consecutive
abnormal closures (code 1006) from a fresh state the counter is at the
maximum of 5 and the state stays disconnected with no sixth timer — but NO
toast is ever emitted on the whole six-closure trace: the terminal
"unable to reconnect" notification in `attemptReconnect` is unreachable
because `onclose` only calls it while the counter is below the maximum. -/
theorem exhausted_retries_silent :
    ((closuresTrace "abc" SessionType.interview 1006 "" 5 initState).1).reconnectAttemptsRef
      = maxReconnectAttempts ∧
    hasToast (closuresTrace "abc" SessionType.interview 1006 "" 6 initState).2 = false ∧
    schedulesTimer
      (onclose "abc" SessionType.interview 1006 ""
        (closuresTrace "abc" SessionType.interview 1006 "" 5 initState).1).2 = false ∧
    ((onclose "abc" SessionType.interview 1006 ""
        (closuresTrace "abc" SessionType.interview 1006 "" 5 initState).1).1).connectionStatus
      = ConnStatus.disconnected ∧
    ((onclose "abc" SessionType.interview 1006 ""
        (closuresTrace "abc" SessionType.interview 1006 "" 5 initState).1).1).reconnectTimeoutRef
      = ((closuresTrace "abc" SessionType.interview 1006 "" 5 initState).1).reconnectTimeoutRef := by
  decide

end WS
